import Mathlib

/-!
Verification of the rule-based decision engine in `src/agent/mock_llm.py`
(class `MockChatModel`) and the catalog statistics in `src/mcp/mcp_server.py`.

The Python code is shallowly embedded: the regular expressions used by the
argument extractors are encoded as explicit pattern values for a small
backtracking matcher with Python `re` semantics (leftmost match, ordered
alternation, greedy and lazy quantifiers over character classes), Python
floats are modelled as rationals (every numeric literal reachable in the
theorems below is an exactly representable short decimal), and the only
exception caught by the formatter (`json.JSONDecodeError`) is modelled by
passing the decode result as an `Option`, while the uncaught dynamic errors
(`TypeError`, `KeyError`, `AttributeError`) surface in an `Except`.
-/

namespace MockLLM

/-- Python `\s` (ASCII whitespace, as matched by `re` on the lowercased
ASCII utterances handled here). -/
def isPySpace (c : Char) : Bool :=
  c = ' ' || c = '\t' || c = '\n' || c = '\x0d' || c = '\x0b' || c = '\x0c'

/-- Character of Python word class `\w` (ASCII range). -/
def isWordChar (c : Char) : Bool := c.isAlphanum || c = '_'

/-- Patterns of the shape used by `mock_llm.py`: literals, single-character
classes, ordered alternation, sequencing, optional parts, and greedy or lazy
quantifiers over character classes. -/
inductive RE where
  | fail
  | lit (s : List Char)
  | one (p : Char → Bool)
  | alt (r₁ r₂ : RE)
  | seq (r₁ r₂ : RE)
  | opt (r : RE)
  | starG (p : Char → Bool)
  | plusG (p : Char → Bool)
  | starL (p : Char → Bool)
  | plusL (p : Char → Bool)
  | eos

/-- Try the continuation after dropping each listed number of characters in
turn; the list order realises the quantifier's preference order. -/
def tryDrops (k : List Char → Option α) (cs : List Char) : List Nat → Option α
  | [] => none
  | n :: ns => (k (cs.drop n)).orElse fun _ => tryDrops k cs ns

/-- Backtracking matcher with Python `re` priority: ordered alternation,
greedy quantifiers prefer the longest repetition, lazy ones the shortest. -/
def matchRE : RE → List Char → (List Char → Option α) → Option α
  | .fail, _, _ => none
  | .lit s, cs, k => if s.isPrefixOf cs then k (cs.drop s.length) else none
  | .one p, cs, k =>
    match cs with
    | [] => none
    | c :: rest => if p c then k rest else none
  | .alt r₁ r₂, cs, k => (matchRE r₁ cs k).orElse fun _ => matchRE r₂ cs k
  | .seq r₁ r₂, cs, k => matchRE r₁ cs fun cs' => matchRE r₂ cs' k
  | .opt r, cs, k => (matchRE r cs k).orElse fun _ => k cs
  | .starG p, cs, k =>
    tryDrops k cs (List.range ((cs.takeWhile p).length + 1)).reverse
  | .plusG p, cs, k =>
    tryDrops k cs ((List.range ((cs.takeWhile p).length)).map (· + 1)).reverse
  | .starL p, cs, k =>
    tryDrops k cs (List.range ((cs.takeWhile p).length + 1))
  | .plusL p, cs, k =>
    tryDrops k cs ((List.range ((cs.takeWhile p).length)).map (· + 1))
  | .eos, cs, k => if cs.isEmpty then k cs else none

/-- A pattern with a single capture group: `pre (grp) post`. -/
structure CapRE where
  pre : RE
  grp : RE
  post : RE

/-- Match `pre (grp) post` anchored at the start of `cs`, returning the
characters consumed by the group of the first match in priority order. -/
def capAt (r : CapRE) (cs : List Char) : Option (List Char) :=
  matchRE r.pre cs fun cs1 =>
    matchRE r.grp cs1 fun cs2 =>
      matchRE r.post cs2 fun _ =>
        some (cs1.take (cs1.length - cs2.length))

/-- `re.search` over a capture pattern: try each start position from the
left, returning the group of the leftmost match. -/
def searchCap (r : CapRE) : List Char → Option (List Char)
  | [] => capAt r []
  | c :: cs => (capAt r (c :: cs)).orElse fun _ => searchCap r cs

/-- Literal pattern from a string. -/
def relit (s : String) : RE := .lit s.data

/-- Sequence of patterns. -/
def reseq (rs : List RE) : RE := rs.foldr RE.seq (RE.lit [])

/-- Ordered alternation of patterns (first listed is preferred). -/
def realt (rs : List RE) : RE := rs.foldr RE.alt RE.fail

/-- Python `str.lower()` (ASCII case folding of the texts handled here),
written over the character list so that it evaluates by reduction. -/
def pyToLower (s : String) : String := ⟨s.data.map Char.toLower⟩

/-- Whether `sub` occurs as a contiguous run inside the second list. -/
def isInfixCharList (sub : List Char) : List Char → Bool
  | [] => sub.isEmpty
  | c :: cs => sub.isPrefixOf (c :: cs) || isInfixCharList sub cs

/-- Python substring test `sub in t`. -/
def containsSub (t sub : String) : Bool := isInfixCharList sub.data t.data

/-- Word boundary `\b` at position `j` of `cs`: the word-character status
changes there (positions outside the text count as non-word). -/
def boundaryAt (cs : List Char) (j : Nat) : Bool :=
  let before := if j = 0 then false else isWordChar (cs.getD (j - 1) ' ')
  let after := isWordChar (cs.getD j ' ')
  before != after

/-- Python `re.search(r"\b<kw>\b", t) is not None` for a plain keyword. -/
def reSearchWB (kw t : String) : Bool :=
  (List.range (t.data.length + 1)).any fun i =>
    kw.data.isPrefixOf (t.data.drop i) && boundaryAt t.data i
      && boundaryAt t.data (i + kw.data.length)

/-- Numeric value of a run of decimal digits. -/
def digitsToNat (ds : List Char) : Nat :=
  ds.foldl (fun acc c => 10 * acc + (c.toNat - '0'.toNat)) 0

/-- Value of a decimal literal `\d+(?:\.\d+)?` (Python `float(...)`),
modelled exactly as a rational. -/
def ratOfNumLit (ds : List Char) : ℚ :=
  let ip := ds.takeWhile fun c => c != '.'
  let fp := (ds.dropWhile fun c => c != '.').drop 1
  mkRat (digitsToNat ip * 10 ^ fp.length + digitsToNat fp) (10 ^ fp.length)

/-- Addition on the rationals modelling Python floats, written so that it
evaluates by kernel reduction (`Rat.add` is `@[irreducible]`); proved equal
to `+` in `qadd_eq`. -/
def qadd (a b : ℚ) : ℚ := Rat.divInt (a.num * b.den + b.num * a.den) (a.den * b.den)

/-- Subtraction on ℚ, evaluable by reduction; equals `-` by `qsub_eq`. -/
def qsub (a b : ℚ) : ℚ := Rat.divInt (a.num * b.den - b.num * a.den) (a.den * b.den)

/-- Multiplication on ℚ, evaluable by reduction; equals `*` by `qmul_eq`. -/
def qmul (a b : ℚ) : ℚ := Rat.divInt (a.num * b.num) (a.den * b.den)

/-- Division on ℚ, evaluable by reduction; equals `/` by `qdiv_eq`
(with Python float semantics it is only ever applied to nonzero divisors;
like `/` on ℚ it returns 0 on a zero divisor). -/
def qdiv (a b : ℚ) : ℚ := Rat.divInt (a.num * b.den) (a.den * b.num)

theorem qadd_eq (a b : ℚ) : qadd a b = a + b := by
  rw [qadd, Rat.divInt_eq_div]
  push_cast
  conv_rhs => rw [← Rat.num_div_den a, ← Rat.num_div_den b]
  have ha : ((a.den : ℚ)) ≠ 0 := Nat.cast_ne_zero.mpr a.den_nz
  have hb : ((b.den : ℚ)) ≠ 0 := Nat.cast_ne_zero.mpr b.den_nz
  field_simp

theorem qsub_eq (a b : ℚ) : qsub a b = a - b := by
  rw [qsub, Rat.divInt_eq_div]
  push_cast
  conv_rhs => rw [← Rat.num_div_den a, ← Rat.num_div_den b]
  have ha : ((a.den : ℚ)) ≠ 0 := Nat.cast_ne_zero.mpr a.den_nz
  have hb : ((b.den : ℚ)) ≠ 0 := Nat.cast_ne_zero.mpr b.den_nz
  field_simp
  ring

theorem qmul_eq (a b : ℚ) : qmul a b = a * b := by
  rw [qmul, Rat.divInt_eq_div]
  push_cast
  conv_rhs => rw [← Rat.num_div_den a, ← Rat.num_div_den b]
  have ha : ((a.den : ℚ)) ≠ 0 := Nat.cast_ne_zero.mpr a.den_nz
  have hb : ((b.den : ℚ)) ≠ 0 := Nat.cast_ne_zero.mpr b.den_nz
  field_simp

theorem qdiv_eq (a b : ℚ) : qdiv a b = a / b := by
  rcases eq_or_ne b 0 with hb0 | hb0
  · subst hb0
    simp [qdiv, Rat.divInt_eq_div]
  · rw [qdiv, Rat.divInt_eq_div]
    push_cast
    conv_rhs => rw [← Rat.num_div_den a, ← Rat.num_div_den b]
    have ha : ((a.den : ℚ)) ≠ 0 := Nat.cast_ne_zero.mpr a.den_nz
    have hb : ((b.den : ℚ)) ≠ 0 := Nat.cast_ne_zero.mpr b.den_nz
    have hbn : ((b.num : ℚ)) ≠ 0 := by
      exact_mod_cast Rat.num_ne_zero.mpr hb0
    field_simp

/-- All matches of `\d+(?:\.\d+)?` (as in `re.findall`), non-overlapping,
scanning left to right; the fuel argument is the remaining text length. -/
def findNumbersAux : Nat → List Char → List (List Char)
  | 0, _ => []
  | _ + 1, [] => []
  | fuel + 1, c :: cs =>
    if c.isDigit then
      let ip := (c :: cs).takeWhile Char.isDigit
      let r1 := (c :: cs).dropWhile Char.isDigit
      match r1 with
      | '.' :: d :: r2 =>
        if d.isDigit then
          let fp := (d :: r2).takeWhile Char.isDigit
          let r3 := (d :: r2).dropWhile Char.isDigit
          (ip ++ '.' :: fp) :: findNumbersAux fuel r3
        else ip :: findNumbersAux fuel r1
      | _ => ip :: findNumbersAux fuel r1
    else findNumbersAux fuel cs

/-- `re.findall(r"\d+(?:\.\d+)?", t)`. -/
def findNumbers (t : String) : List (List Char) :=
  findNumbersAux t.data.length t.data

/-- Python `str.strip()` on the ASCII text handled here. -/
def pyStrip (s : String) : String :=
  ⟨((s.data.dropWhile isPySpace).reverse.dropWhile isPySpace).reverse⟩

example : pyStrip "  mouse " = "mouse" := by decide
example : containsSub "discount" "count" = true := by decide
example : reSearchWB "count" "calculate discount on product" = false := by decide
example : reSearchWB "count" "count the items" = true := by decide
example : findNumbers "calculate 15% discount on 100" = ["15".data, "100".data] := by decide
example : ratOfNumLit "12.25".data = mkRat 49 4 := by decide
example : ratOfNumLit "15".data = 15 := by decide

/-! ## The regular expressions of `mock_llm.py`, as pattern values -/

/-- `\s*` -/
def spaceStar : RE := .starG isPySpace

/-- `\s+` -/
def spacePlus : RE := .plusG isPySpace

/-- `[A-Za-z\s]` -/
def isAlphaOrSpace (c : Char) : Bool := c.isAlpha || isPySpace c

/-- `[A-Za-z0-9\s]` -/
def isAlnumOrSpace (c : Char) : Bool := c.isAlphanum || isPySpace c

/-- `(?:price|cost|for)\s*:?\s*\$?(\d+(?:\.\d+)?)` (price in
`_match_add_product`). -/
def pricePat : CapRE where
  pre := reseq [realt [relit "price", relit "cost", relit "for"],
    spaceStar, .opt (relit ":"), spaceStar, .opt (relit "$")]
  grp := reseq [.plusG Char.isDigit, .opt (reseq [relit ".", .plusG Char.isDigit])]
  post := .lit []

/-- `(?:category|in|type)\s*:?\s*([A-Za-z\s]+?)(?:,|$|\s+in_stock)` (category
in `_match_add_product`). -/
def categoryPat : CapRE where
  pre := reseq [realt [relit "category", relit "in", relit "type"],
    spaceStar, .opt (relit ":"), spaceStar]
  grp := .plusL isAlphaOrSpace
  post := realt [relit ",", .eos, reseq [spacePlus, relit "in_stock"]]

/-- `(?:product|item|name)\s*:\s*([A-Za-z][A-Za-z0-9\s]*?)(?:\s*,|\s+price|\s+for|\s+category|\s+\d)`
(name pattern 1 in `_match_add_product`). -/
def namePat1 : CapRE where
  pre := reseq [realt [relit "product", relit "item", relit "name"],
    spaceStar, relit ":", spaceStar]
  grp := .seq (.one Char.isAlpha) (.starL isAlnumOrSpace)
  post := realt [reseq [spaceStar, relit ","], reseq [spacePlus, relit "price"],
    reseq [spacePlus, relit "for"], reseq [spacePlus, relit "category"],
    reseq [spacePlus, .one Char.isDigit]]

/-- `(?:add|create|new|insert|register)(?:\s+(?:a|an|new))?\s+(?:product|item)?\s*:?\s*([A-Za-z][A-Za-z0-9\s]*?)(?:\s*,|\s+price|\s+for|\s+category|\s+in\s+|\s*\d)`
(name pattern 2 in `_match_add_product`). -/
def namePat2 : CapRE where
  pre := reseq [realt [relit "add", relit "create", relit "new", relit "insert", relit "register"],
    .opt (reseq [spacePlus, realt [relit "a", relit "an", relit "new"]]),
    spacePlus,
    .opt (realt [relit "product", relit "item"]),
    spaceStar, .opt (relit ":"), spaceStar]
  grp := .seq (.one Char.isAlpha) (.starL isAlnumOrSpace)
  post := realt [reseq [spaceStar, relit ","], reseq [spacePlus, relit "price"],
    reseq [spacePlus, relit "for"], reseq [spacePlus, relit "category"],
    reseq [spacePlus, relit "in", spacePlus], reseq [spaceStar, .one Char.isDigit]]

/-- `product\s+(\d+)` (first pattern of `_extract_product_id`). -/
def idPatProduct : CapRE where
  pre := reseq [relit "product", spacePlus]
  grp := .plusG Char.isDigit
  post := .lit []

/-- `id\s+(\d+)` (second pattern of `_extract_product_id`). -/
def idPatId : CapRE where
  pre := reseq [relit "id", spacePlus]
  grp := .plusG Char.isDigit
  post := .lit []

/-- `product\s+with\s+id\s+(\d+)` (third pattern of `_extract_product_id`). -/
def idPatProductWithId : CapRE where
  pre := reseq [relit "product", spacePlus, relit "with", spacePlus, relit "id", spacePlus]
  grp := .plusG Char.isDigit
  post := .lit []

/-- `#(\d+)` (fourth pattern of `_extract_product_id`). -/
def idPatHash : CapRE where
  pre := relit "#"
  grp := .plusG Char.isDigit
  post := .lit []

/-- `(\d+)%?` (discount percentage in `_match_discount_on_product`). -/
def discountNumPat : CapRE where
  pre := .lit []
  grp := .plusG Char.isDigit
  post := .opt (relit "%")

/-- `(?:on|for)\s+([a-z]+)` (product name in `_match_discount_on_product`). -/
def discountProdPat : CapRE where
  pre := reseq [realt [relit "on", relit "for"], spacePlus]
  grp := .plusG Char.isLower
  post := .lit []

example : searchCap pricePat "add product: mouse, price 1500, category electronics".data
    = some "1500".data := by decide
example : searchCap namePat1 "add product: mouse, price 1500, category electronics".data
    = some "mouse".data := by decide
example : searchCap categoryPat "add product: mouse, price 1500, category electronics".data
    = some "electronics".data := by decide
example : searchCap idPatProduct "show product 3".data = some "3".data := by decide
example : searchCap discountProdPat "calculate 15% discount on keyboard".data
    = some "keyboard".data := by decide

/-! ## Argument extractors of `MockChatModel` -/

/-- Arguments built by `_match_add_product` (the Python dict
`name/price/category/in_stock`). -/
structure AddArgs where
  name : String
  price : ℚ
  category : String
  in_stock : Bool
  deriving DecidableEq, Repr

/-- Arguments built by `_match_calculator` (`operation/a/b`). -/
structure CalcArgs where
  operation : String
  a : ℚ
  b : ℚ
  deriving DecidableEq, Repr

/-- The pending cross-turn discount stored by `_match_discount_on_product`
(the Python dict with keys `discount` and `product_name`). -/
structure DiscountInfo where
  discount : ℚ
  product_name : String
  deriving DecidableEq, Repr

/-- The mutable `self._context` dict: at most the two keys `last_query`
and `discount_calc` are ever written. -/
structure Ctx where
  last_query : Option String := none
  discount_calc : Option DiscountInfo := none
  deriving DecidableEq, Repr

/-- The ordered pattern list of `_extract_product_id`, in source order. -/
def idPatterns : List CapRE := [idPatProduct, idPatId, idPatProductWithId, idPatHash]

/-- The `for pattern in patterns` loop of `_extract_product_id`: return
`int(match.group(1))` of the first pattern that matches. -/
def extractIdLoop : List CapRE → List Char → Option Int
  | [], _ => none
  | p :: ps, cs =>
    match searchCap p cs with
    | some ds => some (digitsToNat ds : Int)
    | none => extractIdLoop ps cs

/-- `_extract_product_id`. -/
def extract_product_id (t : String) : Option Int := extractIdLoop idPatterns t.data

/-- Modelled from the spec: the same identifier scan but with the fixed
priority the spec describes, in which the most specific phrase
(`product with id N`) is tried first. Only used to compare against the
source order of `extract_product_id`. -/
def extract_product_id_spec (t : String) : Option Int :=
  extractIdLoop [idPatProductWithId, idPatProduct, idPatId, idPatHash] t.data

/-- `_match_intent(text, action_keywords, entity_keywords)`: word-boundary
search for at least one keyword of each list. -/
def match_intent (t : String) (actionKws entityKws : List String) : Bool :=
  actionKws.any (fun kw => reSearchWB kw t) && entityKws.any (fun kw => reSearchWB kw t)

/-- The creation verbs required by `_match_add_product` (substring test). -/
def creationVerbs : List String := ["add", "create", "insert", "new", "register"]

/-- Price extraction of `_match_add_product`: `float(group(1))` of
`pricePat`. -/
def add_extract_price (t : String) : Option ℚ :=
  (searchCap pricePat t.data).map ratOfNumLit

/-- Category extraction of `_match_add_product`: `group(1).strip()` of
`categoryPat`. -/
def add_extract_category (t : String) : Option String :=
  (searchCap categoryPat t.data).map fun cap => pyStrip ⟨cap⟩

/-- The keyword-stripping loop of `_match_add_product`: for each command
word in order, drop it once from the end and once from the start of the
captured name (checking the lowercased name), re-stripping whitespace. -/
def stripCommandWords (n : String) : String :=
  ["add", "create", "new", "product", "item", "insert", "register"].foldl
    (fun name w =>
      let name :=
        if w.data.isSuffixOf (pyToLower name).data then
          pyStrip ⟨name.data.take (name.data.length - w.data.length)⟩
        else name
      if w.data.isPrefixOf (pyToLower name).data then
        pyStrip ⟨name.data.drop w.data.length⟩
      else name)
    n

/-- Name extraction of `_match_add_product`: pattern 1, then pattern 2,
then `group(1).strip()` followed by the keyword-stripping loop. -/
def add_extract_name (t : String) : Option String :=
  match (searchCap namePat1 t.data).orElse fun _ => searchCap namePat2 t.data with
  | some cap => some (stripCommandWords (pyStrip ⟨cap⟩))
  | none => none

/-- `_match_add_product`: requires a creation verb, extracts price,
category and name, and succeeds only when the final Python truthiness
check `if name and price` passes (a `None` or empty name and a `None` or
`0.0` price all fail it); `category or "General"` likewise replaces a
missing or empty category. -/
def match_add_product (t : String) : Option AddArgs :=
  if creationVerbs.any (fun w => containsSub t w) then
    let price := add_extract_price t
    let category := add_extract_category t
    let name := add_extract_name t
    match name, price with
    | some n, some p =>
      if n = "" then none
      else if p = 0 then none
      else some
        { name := n, price := p
          category :=
            match category with
            | some c => if c = "" then "General" else c
            | none => "General"
          in_stock := true }
    | _, _ => none
  else none

/-- `_match_discount_on_product`: requires the substring `discount`,
extracts the first digit run as `float` percentage and the lower-case word
after `on`/`for` as the product name. -/
def match_discount_on_product (t : String) : Option DiscountInfo :=
  if containsSub t "discount" then
    match searchCap discountNumPat t.data with
    | none => none
    | some ds =>
      match searchCap discountProdPat t.data with
      | some ps => some { discount := (digitsToNat ds : ℚ), product_name := ⟨ps⟩ }
      | none => none
  else none

/-- The trigger words of `_match_calculator` (substring test). -/
def calcTriggers : List String :=
  ["calculate", "compute", "multiply", "add", "subtract", "divide", "discount"]

/-- `_match_calculator`: trigger check, `findall` of the numbers, then the
operation chain; a discount/off keyword takes the first branch, where a
`%` sign produces a multiplication by `1 - percent/100` with the operand
below 100 read as the percentage, and without a `%` sign the branch falls
through to `None` (the later `elif` arms are skipped). -/
def match_calculator (t : String) : Option CalcArgs :=
  if calcTriggers.any (fun w => containsSub t w) then
    match findNumbers t with
    | n1 :: n2 :: _ =>
      let a := ratOfNumLit n1
      let b := ratOfNumLit n2
      if containsSub t "discount" || containsSub t "off" then
        if containsSub t "%" then
          let discount_percent := if a < 100 then a else b
          let price := if a < 100 then b else a
          some { operation := "multiply", a := price, b := qsub 1 (qdiv discount_percent 100) }
        else none
      else if ["multiply", "times", "*", "×"].any (fun w => containsSub t w) then
        some { operation := "multiply", a := a, b := b }
      else if ["add", "plus", "+"].any (fun w => containsSub t w) then
        some { operation := "add", a := a, b := b }
      else if ["subtract", "minus", "-"].any (fun w => containsSub t w) then
        some { operation := "subtract", a := a, b := b }
      else if ["divide", "divided by", "/"].any (fun w => containsSub t w) then
        some { operation := "divide", a := a, b := b }
      else none
    | _ =>
      -- fewer than two numbers: the source returns None on both sides of
      -- its inner `discount ... on/for` check
      if containsSub t "discount" && (reSearchWB "on" t || reSearchWB "for" t) then none
      else none
  else none

example : extract_product_id "show product 3" = some 3 := by decide
example : extract_product_id "show all products" = none := by decide
example : extract_product_id "show product 0" = some 0 := by decide
example : match_add_product "add product: mouse, price 1500, category electronics"
    = some { name := "mouse", price := 1500, category := "electronics", in_stock := true } := by
  decide
example : match_discount_on_product "calculate 15% discount on keyboard"
    = some { discount := 15, product_name := "keyboard" } := by decide
example : match_calculator "calculate 15% discount on 100"
    = some { operation := "multiply", a := 100, b := qsub 1 (qdiv 15 100) } := by decide
example : match_calculator "calculate 15% discount on keyboard" = none := by decide

/-! ## The intent classifier (phase 1 of `_generate`) -/

/-- The action produced by one classification step: one constructor per
tool name passed to `_create_tool_call`, plus the terminal text reply. -/
inductive Action where
  | get_product (product_id : Int)
  | get_stats
  | list_products
  | add_product (args : AddArgs)
  | calculator (args : CalcArgs)
  | reply (content : String)
  deriving DecidableEq, Repr

/-- Python truthiness of the optional integer `product_id` (`0` and `None`
are both falsy in `if product_id and ...`). -/
def optIntTruthy : Option Int → Bool
  | none => false
  | some n => n != 0

/-- Retrieval verbs of the identifier-lookup rule (substring test). -/
def retrievalVerbs : List String := ["get", "show", "fetch", "find", "details"]

/-- Action keywords of the statistics rule. -/
def statsActionKws : List String :=
  ["average", "mean", "stats", "statistics", "total", "count", "how many"]

/-- Entity keywords of the statistics rule. -/
def statsEntityKws : List String :=
  ["price", "prices", "cost", "costs", "product", "products", "item", "items"]

/-- Action keywords of the listing rule. -/
def listActionKws : List String :=
  ["list", "show", "display", "get", "what", "all", "view", "see"]

/-- Entity keywords of the listing rule. -/
def listEntityKws : List String :=
  ["product", "products", "item", "items", "catalog", "inventory"]

/-- Phase 1 of `_generate` (the last message is a `HumanMessage`): lower
the utterance, record it as `last_query`, then run the ordered rule
cascade; rule 6 additionally stores `discount_calc` before returning the
listing tool call. -/
def classify (content : String) (ctx : Ctx) : Action × Ctx :=
  let text := pyToLower content
  let ctx1 := { ctx with last_query := some text }
  let pid := extract_product_id text
  if optIntTruthy pid && retrievalVerbs.any (fun w => containsSub text w) then
    (.get_product (pid.getD 0), ctx1)
  else if match_intent text statsActionKws statsEntityKws then
    (.get_stats, ctx1)
  else if match_intent text listActionKws listEntityKws then
    (.list_products, ctx1)
  else
    match match_add_product text with
    | some args => (.add_product args, ctx1)
    | none =>
      match match_calculator text with
      | some args => (.calculator args, ctx1)
      | none =>
        match match_discount_on_product text with
        | some d => (.list_products, { ctx1 with discount_calc := some d })
        | none => (.reply "I don\x27t know how to handle that.", ctx1)

example : (classify "show product 3" { }).1 = .get_product 3 := by decide
example : (classify "tell me a joke" { }).1
    = .reply "I don\x27t know how to handle that." := by decide
example : (classify "show me all products" { }).1 = .list_products := by decide
example : (classify "what is the average price?" { }).1 = .get_stats := by decide
example : classify "calculate 15% discount on keyboard" { }
    = (.list_products,
       { last_query := some "calculate 15% discount on keyboard",
         discount_calc := some { discount := 15, product_name := "keyboard" } }) := by decide


/-! ## Python values and the result formatter (phase 2 of `_generate`) -/

/-- Values produced by `json.loads` (JSON integers stay `int`, JSON
fractions become `float`, here a rational). -/
inductive PyVal where
  | str (s : String)
  | int (n : Int)
  | float (q : ℚ)
  | bool (b : Bool)
  | null
  | list (xs : List PyVal)
  | dict (kvs : List (String × PyVal))

/-- The dynamic errors the formatter can raise; `json.JSONDecodeError` is
the only one it catches, so these propagate out of `_generate`. -/
inductive PyErr where
  | typeError
  | keyError (k : String)
  | attributeError
  deriving DecidableEq, Repr

instance {ε α : Type} [DecidableEq ε] [DecidableEq α] : DecidableEq (Except ε α)
  | .ok a, .ok b =>
    if h : a = b then .isTrue (congrArg _ h) else .isFalse fun hh => h (Except.ok.inj hh)
  | .error e, .error f =>
    if h : e = f then .isTrue (congrArg _ h) else .isFalse fun hh => h (Except.error.inj hh)
  | .ok _, .error _ => .isFalse fun hh => Except.noConfusion hh
  | .error _, .ok _ => .isFalse fun hh => Except.noConfusion hh

/-- Python subscript `v[k]` with a string key: a dict lookup
(`KeyError` when absent), `TypeError` on every non-dict value. -/
def dictGet (v : PyVal) (k : String) : Except PyErr PyVal :=
  match v with
  | .dict kvs =>
    match kvs.lookup k with
    | some x => .ok x
    | none => .error (.keyError k)
  | _ => .error .typeError

/-- Python membership `s in v` for a string `s`: key test on a dict,
substring test on a string, element equality on a list (a string equals
no value of another type), `TypeError` on the remaining types. -/
def pyContainsStr (v : PyVal) (s : String) : Except PyErr Bool :=
  match v with
  | .dict kvs => .ok (kvs.any fun kv => kv.1 == s)
  | .str s2 => .ok (containsSub s2 s)
  | .list xs => .ok (xs.any fun x =>
      match x with
      | .str s2 => s == s2
      | _ => false)
  | _ => .error .typeError

/-- Python `v.lower()`: only strings have the attribute. -/
def pyLowerStr (v : PyVal) : Except PyErr String :=
  match v with
  | .str s => .ok (pyToLower s)
  | _ => .error .attributeError

/-- Numeric coercion performed by Python multiplication with a float
(`bool` counts as 0 or 1; strings and containers raise `TypeError`). -/
def pyAsNum (v : PyVal) : Except PyErr ℚ :=
  match v with
  | .int n => .ok (n : ℚ)
  | .float q => .ok q
  | .bool b => .ok (if b then 1 else 0)
  | _ => .error .typeError

/-- Left-pad a digit string with zeros to the given width. -/
def padZeros (s : String) (k : Nat) : String :=
  ⟨List.replicate (k - s.data.length) '0' ++ s.data⟩

/-- The smallest power of ten clearing the denominator, when one of at
most 17 digits exists (it always does for the short decimals produced by
the embedded code paths). -/
def decExponent (q : ℚ) : Option Nat :=
  (List.range 18).find? fun k => (Rat.divInt (q.num * (10 ^ k : Nat)) (q.den : Int)).den = 1

/-- Python `str()` of a float, for the exactly-representable short
decimals reachable here: integral values print with a trailing `.0`,
other terminating decimals print all their fraction digits (Python would
switch to scientific notation only for magnitudes never reached in the
embedded code paths). -/
def pyFloatRepr (q : ℚ) : String :=
  match decExponent q with
  | some 0 => toString q.num ++ ".0"
  | some k =>
    let n := (Rat.divInt (q.num * (10 ^ k : Nat)) (q.den : Int)).num
    let sign := if n < 0 then "-" else ""
    let m := n.natAbs
    sign ++ toString (m / 10 ^ k) ++ "." ++ padZeros (toString (m % 10 ^ k)) k
  | none => toString q.num ++ "/" ++ toString q.den

/-- Round to an integer, halves to the even neighbour (Python `round` and
the rounding of `format(x, ".2f")` on exact values). -/
def roundHalfEven (q : ℚ) : Int :=
  let f := q.num.fdiv q.den
  let twice := 2 * (q.num - f * q.den)
  if twice < (q.den : Int) then f
  else if (q.den : Int) < twice then f + 1
  else if f % 2 = 0 then f else f + 1

/-- Python `f"{q:.2f}"`. -/
def format2f (q : ℚ) : String :=
  let c := roundHalfEven (qmul q 100)
  let sign := if c < 0 then "-" else ""
  let m := c.natAbs
  sign ++ toString (m / 100) ++ "." ++ padZeros (toString (m % 100)) 2

mutual

/-- Python `repr()` as used when a container is interpolated. -/
def pyRepr : PyVal → String
  | .str s => "\x27" ++ s ++ "\x27"
  | .int n => toString n
  | .float q => pyFloatRepr q
  | .bool b => if b then "True" else "False"
  | .null => "None"
  | .list xs => "[" ++ String.intercalate ", " (pyReprList xs) ++ "]"
  | .dict kvs => "\x7b" ++ String.intercalate ", " (pyReprKVs kvs) ++ "\x7d"

/-- `repr()` of the elements of a list. -/
def pyReprList : List PyVal → List String
  | [] => []
  | v :: vs => pyRepr v :: pyReprList vs

/-- `repr()` of the entries of a dict. -/
def pyReprKVs : List (String × PyVal) → List String
  | [] => []
  | kv :: kvs => ("\x27" ++ kv.1 ++ "\x27: " ++ pyRepr kv.2) :: pyReprKVs kvs

end

/-- Python `str()` as used by f-string interpolation. -/
def pyStr (v : PyVal) : String :=
  match v with
  | .str s => s
  | _ => pyRepr v

/-- Sequencing of the formatter steps that can raise: the first error
propagates, as an uncaught Python exception does. -/
def ebind (x : Except PyErr α) (f : α → Except PyErr β) : Except PyErr β :=
  match x with
  | .error e => .error e
  | .ok a => f a

/-- The scan of the discount branch: first list entry whose lowered
`name` field contains the stored (lowered) product name. -/
def findMatching (pname : String) : List PyVal → Except PyErr (Option PyVal)
  | [] => .ok none
  | item :: rest =>
    ebind (dictGet item "name") fun nameVal =>
      ebind (pyLowerStr nameVal) fun lowered =>
        if containsSub lowered pname then .ok (some item)
        else findMatching pname rest

/-- The pending-discount branch of `_format_json_output` (run after the
pop of `discount_calc`): find the product, compute
`price * (1 - percent/100)` and render it, or report that no product
matched. -/
def handle_discount (d : DiscountInfo) (xs : List PyVal) : Except PyErr String :=
  let pname := pyToLower d.product_name
  ebind (findMatching pname xs) fun found =>
    match found with
    | some item =>
      ebind (dictGet item "price") fun priceVal =>
        ebind (pyAsNum priceVal) fun originalPrice =>
          let discounted := qmul originalPrice (qsub 1 (qdiv d.discount 100))
          ebind (dictGet item "name") fun nameVal =>
            .ok ("The " ++ pyStr nameVal ++ " costs $" ++ pyStr priceVal ++ ". With a "
              ++ pyFloatRepr d.discount ++ "% discount, the price would be $"
              ++ format2f discounted ++ ".")
    | none =>
      .ok ("I couldn\x27t find a product matching \x27" ++ d.product_name
        ++ "\x27 in the catalog.")

/-- The per-item lines of the product-list rendering (case 1). -/
def renderItems : List PyVal → Except PyErr (List String)
  | [] => .ok []
  | item :: rest =>
    ebind (dictGet item "name") fun nameVal =>
      ebind (dictGet item "price") fun priceVal =>
        ebind (dictGet item "category") fun catVal =>
          let line := "• " ++ pyStr nameVal ++ " ($" ++ pyStr priceVal ++ ") - " ++ pyStr catVal
          ebind (renderItems rest) fun ls => .ok (line :: ls)

/-- Cases 2 and 3 of `_format_json_output` (stats dict, then single
product dict), falling through to the literal echo. -/
def renderDicts (output : String) (data : PyVal) : Except PyErr String :=
  match data with
  | .dict kvs =>
    if kvs.any (fun kv => kv.1 == "total_products") then
      ebind (dictGet data "total_products") fun tp =>
        ebind (dictGet data "average_price") fun ap =>
          .ok ("I found " ++ pyStr tp ++ " products with an average price of $"
            ++ pyStr ap ++ ".")
    else if kvs.any (fun kv => kv.1 == "id") then
      ebind (dictGet data "name") fun nameVal =>
        ebind (dictGet data "id") fun idVal =>
          .ok ("Successfully added \x27" ++ pyStr nameVal ++ "\x27 (ID: " ++ pyStr idVal
            ++ ") to the catalog.")
    else .ok ("The result is: " ++ output)
  | _ => .ok ("The result is: " ++ output)

/-- The non-discount cases of `_format_json_output` on a decoded value:
case 1 (non-empty list whose first entry has a name) renders the bulleted
listing, then the dict cases, then the echo. -/
def plainFormat (output : String) (data : PyVal) : Except PyErr String :=
  match data with
  | .list (x :: xs) =>
    ebind (pyContainsStr x "name") fun hasName =>
      if hasName then
        ebind (renderItems (x :: xs)) fun ls =>
          .ok (String.intercalate "\n" ("Here are the products I found:" :: ls))
      else renderDicts output data
  | _ => renderDicts output data

/-- `_format_json_output`: `parsed` is the result of `json.loads(output)`
(`none` models `json.JSONDecodeError`, which the source catches and turns
into the literal echo). When `discount_calc` is pending and the payload
is a list, the pending entry is popped before anything else and the
discount branch runs; every other decoded payload leaves the context
untouched. The returned context is final even when the string result is
an error, because the pop happens before the code that can raise. -/
def format_json_output (output : String) (parsed : Option PyVal) (ctx : Ctx) :
    Except PyErr String × Ctx :=
  match parsed with
  | none => (.ok ("The result is: " ++ output), ctx)
  | some data =>
    match data, ctx.discount_calc with
    | .list xs, some d => (handle_discount d xs, { ctx with discount_calc := none })
    | _, _ => (plainFormat output data, ctx)

/-- One product row of the catalog (`src/data/product.py`). -/
structure Product where
  id : Int
  name : String
  price : ℚ
  category : String
  in_stock : Bool

/-- `_get_stats_logic` of `src/mcp/mcp_server.py`, returning the Python
dict it builds: on an empty catalog the zero branch returns before any
division is attempted; otherwise the mean of the prices is rounded to two
decimal places. -/
def get_stats_logic (products_data : List Product) : List (String × PyVal) :=
  if products_data.length = 0 then
    [("total_products", .int 0), ("average_price", .float 0)]
  else
    let total_price := products_data.foldl (fun acc p => qadd acc p.price) 0
    let average_price := qdiv total_price (products_data.length : ℚ)
    [("total_products", .int products_data.length),
     ("average_price", .float (qdiv (roundHalfEven (qmul average_price 100) : ℚ) 100))]

example : pyFloatRepr 15 = "15.0" := by decide
example : pyFloatRepr (mkRat 17 20) = "0.85" := by decide
example : pyFloatRepr 0 = "0.0" := by decide
example : format2f 2125 = "2125.00" := by decide
example : handle_discount { discount := 15, product_name := "keyboard" }
    [.dict [("id", .int 1), ("name", .str "Keyboard"), ("price", .int 2500),
            ("category", .str "Electronics"), ("in_stock", .bool true)]]
    = .ok "The Keyboard costs $2500. With a 15.0% discount, the price would be $2125.00." := by
  decide
example : (format_json_output "x" (some (.dict (get_stats_logic []))) { }).1
    = .ok "I found 0 products with an average price of $0.0." := by decide
example : (format_json_output "[1]" (some (.list [.int 1])) { }).1 = .error .typeError := by
  decide

/-! ## Claim theorems -/

/-- C1: whenever `pending_discount` (`discount_calc`) is set, the next
formatter invocation whose payload decodes to a JSON list runs the
discount branch (before any other list handling) and removes the pending
entry whether or not any entry matches; a second formatter call on any
list payload then takes the plain path with an unchanged context, and
non-list or undecodable payloads never touch the pending entry. -/
theorem pending_discount_consumed_once
    (d : DiscountInfo) (ctx : Ctx) (out : String) (xs : List PyVal)
    (h : ctx.discount_calc = some d) :
    format_json_output out (some (.list xs)) ctx
        = (handle_discount d xs, { ctx with discount_calc := none })
    ∧ (format_json_output out (some (.list xs)) ctx).2.discount_calc = none
    ∧ (∀ (out2 : String) (ys : List PyVal),
        format_json_output out2 (some (.list ys))
            (format_json_output out (some (.list xs)) ctx).2
          = (plainFormat out2 (.list ys), (format_json_output out (some (.list xs)) ctx).2))
    ∧ (∀ (out2 : String) (v : PyVal), (∀ ys, v ≠ .list ys) →
        (format_json_output out2 (some v) ctx).2 = ctx)
    ∧ (∀ out2 : String, (format_json_output out2 none ctx).2 = ctx) := by
  have h1 : format_json_output out (some (.list xs)) ctx
      = (handle_discount d xs, { ctx with discount_calc := none }) := by
    simp only [format_json_output, h]
  refine ⟨h1, by rw [h1], ?_, ?_, fun _ => rfl⟩
  · intro out2 ys
    rw [h1]
    rfl
  · intro out2 v hv
    cases v with
    | list ys => exact absurd rfl (hv ys)
    | str s => rfl
    | int n => rfl
    | float q => rfl
    | bool b => rfl
    | null => rfl
    | dict kvs => rfl

/-- Witness for C1 at the concrete pending discount of the spec's
two-step scenario. -/
theorem pending_discount_consumed_once_witness :
    (format_json_output "[]" (some (.list []))
        { last_query := none,
          discount_calc := some { discount := 15, product_name := "keyboard" } }).2.discount_calc
      = none :=
  (pending_discount_consumed_once { discount := 15, product_name := "keyboard" }
    { last_query := none,
      discount_calc := some { discount := 15, product_name := "keyboard" } }
    "[]" [] rfl).2.1

/-- C3 counterexample: the payload `[1]` decodes as JSON but fits no
structured case, and instead of the literal echo the formatter raises a
`TypeError` (`"name" in data[0]` on an `int`): the turn fails. -/
theorem formatter_fallback_counterexample :
    (format_json_output "[1]" (some (.list [.int 1])) { }).1 = .error .typeError
    ∧ ∀ s : String, (format_json_output "[1]" (some (.list [.int 1])) { }).1 ≠ .ok s := by
  refine ⟨by decide, ?_⟩
  intro s h
  rw [(by decide :
    (format_json_output "[1]" (some (.list [.int 1])) { }).1 = .error .typeError)] at h
  exact Except.noConfusion h

/-- C3 amended: an undecodable payload is echoed verbatim as
`The result is: <raw payload>` with the context untouched, and so is
every decoded payload that fits no structured case and whose dynamic
accesses do not raise: scalar strings and numbers, booleans, null, the
empty list, dicts carrying neither a `total_products` nor an `id` key,
and lists whose first entry is a dict without a `name` key; only decoded
payloads whose dynamic accesses raise (such as a list whose first element
is a number) fail the turn. -/
theorem formatter_fallback_amended :
    (∀ (out : String) (ctx : Ctx),
        format_json_output out none ctx = (.ok ("The result is: " ++ out), ctx))
    ∧ (∀ (out s : String) (lq : Option String),
        format_json_output out (some (.str s)) { last_query := lq, discount_calc := none }
          = (.ok ("The result is: " ++ out), { last_query := lq, discount_calc := none }))
    ∧ (∀ (out : String) (q : ℚ) (lq : Option String),
        format_json_output out (some (.float q)) { last_query := lq, discount_calc := none }
          = (.ok ("The result is: " ++ out), { last_query := lq, discount_calc := none }))
    ∧ (∀ (out : String) (n : Int) (lq : Option String),
        format_json_output out (some (.int n)) { last_query := lq, discount_calc := none }
          = (.ok ("The result is: " ++ out), { last_query := lq, discount_calc := none }))
    ∧ (∀ (out : String) (b : Bool) (lq : Option String),
        format_json_output out (some (.bool b)) { last_query := lq, discount_calc := none }
          = (.ok ("The result is: " ++ out), { last_query := lq, discount_calc := none }))
    ∧ (∀ (out : String) (lq : Option String),
        format_json_output out (some .null) { last_query := lq, discount_calc := none }
          = (.ok ("The result is: " ++ out), { last_query := lq, discount_calc := none }))
    ∧ (∀ (out : String) (lq : Option String),
        format_json_output out (some (.list [])) { last_query := lq, discount_calc := none }
          = (.ok ("The result is: " ++ out), { last_query := lq, discount_calc := none }))
    ∧ (∀ (out : String) (kvs : List (String × PyVal)) (lq : Option String),
        (kvs.any fun kv => kv.1 == "total_products") = false →
        (kvs.any fun kv => kv.1 == "id") = false →
        format_json_output out (some (.dict kvs)) { last_query := lq, discount_calc := none }
          = (.ok ("The result is: " ++ out), { last_query := lq, discount_calc := none }))
    ∧ (∀ (out : String) (kvs : List (String × PyVal)) (xs : List PyVal) (lq : Option String),
        (kvs.any fun kv => kv.1 == "name") = false →
        format_json_output out (some (.list (.dict kvs :: xs)))
            { last_query := lq, discount_calc := none }
          = (.ok ("The result is: " ++ out), { last_query := lq, discount_calc := none })) := by
  refine ⟨fun _ _ => rfl, fun _ _ _ => rfl, fun _ _ _ => rfl, fun _ _ _ => rfl,
    fun _ _ _ => rfl, fun _ _ => rfl, fun _ _ => rfl, ?_, ?_⟩
  · intro out kvs lq h1 h2
    simp [format_json_output, plainFormat, renderDicts, h1, h2]
  · intro out kvs xs lq h
    simp [format_json_output, plainFormat, pyContainsStr, ebind, renderDicts, h]

/-- Witness for C3 at a keyless dict and at a list headed by a nameless
dict, both of which fall through to the literal echo. -/
theorem formatter_fallback_amended_witness :
    format_json_output "x" (some (.dict [("foo", .int 1)]))
        { last_query := none, discount_calc := none }
      = (.ok "The result is: x", { last_query := none, discount_calc := none })
    ∧ format_json_output "y" (some (.list [.dict [("id", .int 1)]]))
        { last_query := none, discount_calc := none }
      = (.ok "The result is: y", { last_query := none, discount_calc := none }) :=
  ⟨formatter_fallback_amended.2.2.2.2.2.2.2.1 "x" [("foo", .int 1)] none
      (by decide) (by decide),
   formatter_fallback_amended.2.2.2.2.2.2.2.2 "y" [("id", .int 1)] [] none (by decide)⟩

/-- C7: the statistics keywords are matched with word boundaries, so
`calculate discount on product` does not fire the statistics intent (the
substring `count` inside `discount` does not count); the classifier falls
through to the fallback reply, for every starting context. -/
theorem word_boundary_stats (ctx : Ctx) :
    match_intent "calculate discount on product" statsActionKws statsEntityKws = false
    ∧ (classify "calculate discount on product" ctx).1
        = .reply "I don\x27t know how to handle that."
    ∧ (classify "calculate discount on product" ctx).1 ≠ .get_stats := by
  refine ⟨by decide, rfl, ?_⟩
  intro h
  rw [(rfl : (classify "calculate discount on product" ctx).1
      = .reply "I don\x27t know how to handle that.")] at h
  exact Action.noConfusion h

/-- C8 counterexample: the source priority is
`product N`, `id N`, `product with id N`, `#N`, not most-specific-first;
on `avoid 5 product with id 3` the source order finds `id 5` inside
`avoid 5` (second pattern, no word boundary) while the most-specific-first
order of the claim finds 3. -/
theorem id_priority_counterexample :
    extract_product_id "avoid 5 product with id 3" = some 5
    ∧ extract_product_id_spec "avoid 5 product with id 3" = some 3
    ∧ extract_product_id "avoid 5 product with id 3"
        ≠ extract_product_id_spec "avoid 5 product with id 3" := by
  refine ⟨by decide, by decide, by decide⟩

/-- C8 amended: for every utterance, identifier extraction returns the
captured number of the first pattern that matches under the fixed source
priority `product N`, then `id N`, then `product with id N`, then `#N`
(the most specific phrase is third, not first), and `none` when no
pattern matches. -/
theorem id_extraction_priority (t : String) :
    extract_product_id t
      = (((searchCap idPatProduct t.data).map fun ds => (digitsToNat ds : Int)).orElse
          fun _ =>
            (((searchCap idPatId t.data).map fun ds => (digitsToNat ds : Int)).orElse
              fun _ =>
                (((searchCap idPatProductWithId t.data).map
                    fun ds => (digitsToNat ds : Int)).orElse
                  fun _ => (searchCap idPatHash t.data).map
                    fun ds => (digitsToNat ds : Int)))) := by
  simp only [extract_product_id, idPatterns, extractIdLoop]
  cases searchCap idPatProduct t.data <;>
    cases searchCap idPatId t.data <;>
      cases searchCap idPatProductWithId t.data <;>
        cases searchCap idPatHash t.data <;> rfl

/-- C9: on an empty catalog `_get_stats_logic` takes the zero branch
(before any division) and returns the count 0 with average price exactly
0.0, and formatting that record renders a sentence containing
`0 products`. -/
theorem empty_catalog_stats (out : String) (lq : Option String) :
    get_stats_logic [] = [("total_products", .int 0), ("average_price", .float 0)]
    ∧ (format_json_output out (some (.dict (get_stats_logic [])))
        { last_query := lq, discount_calc := none }).1
      = .ok "I found 0 products with an average price of $0.0."
    ∧ containsSub "I found 0 products with an average price of $0.0." "0 products" = true := by
  refine ⟨rfl, rfl, by decide⟩


/-- C6 counterexample: on `show product 0` identifier extraction succeeds
(with 0), a retrieval verb is present and the listing conditions hold,
yet the classifier emits the listing call, because `if product_id and ...`
treats the extracted 0 as falsy and skips rule 1. -/
theorem id_lookup_zero_counterexample :
    extract_product_id "show product 0" = some 0
    ∧ retrievalVerbs.any (fun w => containsSub "show product 0" w) = true
    ∧ match_intent "show product 0" listActionKws listEntityKws = true
    ∧ (classify "show product 0" { }).1 = .list_products
    ∧ (classify "show product 0" { }).1 ≠ .get_product 0 := by
  refine ⟨by decide, by decide, by decide, by decide, by decide⟩

/-- C6 amended: when identifier extraction succeeds with a nonzero
identifier and a retrieval verb is present, rule 1 fires first: even if
the listing conditions also hold, the classifier emits the
identifier-lookup call (an extracted identifier of 0 is treated as no
match by the Python truthiness guard). -/
theorem id_lookup_precedence
    (content : String) (ctx : Ctx) (n : Int)
    (hid : extract_product_id (pyToLower content) = some n)
    (hnz : n ≠ 0)
    (hverb : retrievalVerbs.any (fun w => containsSub (pyToLower content) w) = true)
    (hlist : match_intent (pyToLower content) listActionKws listEntityKws = true) :
    (classify content ctx).1 = .get_product n := by
  simp [classify, hid, hverb, optIntTruthy, hnz]

/-- Witness for C6 at `show product 3`, which satisfies both the
identifier-lookup and the listing conditions. -/
theorem id_lookup_precedence_witness :
    (classify "show product 3" { }).1 = .get_product 3 :=
  id_lookup_precedence "show product 3" { } 3 (by decide) (by decide) (by decide) (by decide)

/-- C4: when a calculator trigger, at least two numbers, a discount/off
keyword and a `%` sign are all present, and exactly one of the first two
numbers is below 100, `_match_calculator` returns a multiplication whose
first operand is the number not below 100 (the price) and whose second is
`1 - p/100` for the number `p` below 100 (the percentage). -/
theorem calculator_discount_heuristic
    (t : String) (n1 n2 : List Char) (rest : List (List Char))
    (htrig : calcTriggers.any (fun w => containsSub t w) = true)
    (hnums : findNumbers t = n1 :: n2 :: rest)
    (hdisc : (containsSub t "discount" || containsSub t "off") = true)
    (hpct : containsSub t "%" = true)
    (hx : (ratOfNumLit n1 < 100 ∧ ¬ ratOfNumLit n2 < 100)
        ∨ (ratOfNumLit n2 < 100 ∧ ¬ ratOfNumLit n1 < 100)) :
    ∃ p price : ℚ, p < 100 ∧ ¬ price < 100
      ∧ ((p = ratOfNumLit n1 ∧ price = ratOfNumLit n2)
        ∨ (p = ratOfNumLit n2 ∧ price = ratOfNumLit n1))
      ∧ match_calculator t = some { operation := "multiply", a := price, b := 1 - p / 100 } := by
  rcases hx with ⟨h1, h2⟩ | ⟨h1, h2⟩
  · refine ⟨ratOfNumLit n1, ratOfNumLit n2, h1, h2, .inl ⟨rfl, rfl⟩, ?_⟩
    simp [match_calculator, htrig, hnums, hdisc, hpct, h1, qsub_eq, qdiv_eq]
  · refine ⟨ratOfNumLit n2, ratOfNumLit n1, h1, h2, .inr ⟨rfl, rfl⟩, ?_⟩
    simp [match_calculator, htrig, hnums, hdisc, hpct, h2, qsub_eq, qdiv_eq]

/-- Witness for C4 at the spec's `calculate 15% discount on 100`,
including the claimed tolerance-0.01 values a = 100, b = 0.85. -/
theorem calculator_discount_heuristic_witness :
    match_calculator "calculate 15% discount on 100"
      = some { operation := "multiply", a := 100, b := 1 - 15 / 100 }
    ∧ |(1 : ℚ) - 15 / 100 - 85 / 100| ≤ 1 / 100 := by
  constructor
  · obtain ⟨p, price, hp, hpr, hc, heq⟩ :=
      calculator_discount_heuristic "calculate 15% discount on 100"
        "15".data "100".data [] (by decide) (by decide) (by decide) (by decide)
        (Or.inl ⟨by decide, by decide⟩)
    rcases hc with ⟨hp1, hp2⟩ | ⟨hp1, hp2⟩
    · rw [heq, hp1, hp2, (by decide : ratOfNumLit "15".data = (15 : ℚ)),
        (by decide : ratOfNumLit "100".data = (100 : ℚ))]
    · rw [hp1] at hp
      exact absurd hp (by decide)
  · norm_num

/-- C5: creation-field extraction succeeds only when both a (nonempty)
name and a (nonzero) price were extracted; on success with no category
found, the category is the literal `General` and the stock flag is true;
and on `add product: Mouse, price 1500, category Electronics` (lowercased
by the classifier) it produces the creation action with name `mouse`,
price 1500.0, category `electronics` and stock flag true. -/
theorem add_product_extraction :
    (∀ (t : String) (r : AddArgs), match_add_product t = some r →
        add_extract_name t = some r.name ∧ r.name ≠ ""
          ∧ add_extract_price t = some r.price ∧ r.price ≠ 0)
    ∧ (∀ (t : String) (r : AddArgs), match_add_product t = some r →
        add_extract_category t = none → r.category = "General" ∧ r.in_stock = true)
    ∧ (classify "add product: Mouse, price 1500, category Electronics" { }).1
        = .add_product
            { name := "mouse", price := 1500, category := "electronics", in_stock := true } := by
  refine ⟨?_, ?_, by decide⟩
  · intro t r h
    simp only [match_add_product] at h
    split at h
    · cases hn : add_extract_name t with
      | none => rw [hn] at h; simp at h
      | some n =>
        cases hp : add_extract_price t with
        | none => rw [hn, hp] at h; simp at h
        | some p =>
          rw [hn, hp] at h
          by_cases hne : n = ""
          · simp [hne] at h
          · by_cases hpe : p = 0
            · simp [hne, hpe] at h
            · simp only [hne, hpe, if_neg, if_false, reduceIte] at h
              cases h
              exact ⟨rfl, hne, rfl, hpe⟩
    · simp at h
  · intro t r h hcat
    simp only [match_add_product] at h
    split at h
    · cases hn : add_extract_name t with
      | none => rw [hn] at h; simp at h
      | some n =>
        cases hp : add_extract_price t with
        | none => rw [hn, hp] at h; simp at h
        | some p =>
          rw [hn, hp, hcat] at h
          by_cases hne : n = ""
          · simp [hne] at h
          · by_cases hpe : p = 0
            · simp [hne, hpe] at h
            · simp only [hne, hpe, if_neg, if_false, reduceIte] at h
              cases h
              exact ⟨rfl, rfl⟩
    · simp at h

/-- Witness for C5, reading off the facts at the concrete creation
utterance. -/
theorem add_product_extraction_witness :
    add_extract_name "add product: mouse, price 1500, category electronics" = some "mouse"
    ∧ add_extract_price "add product: mouse, price 1500, category electronics" = some 1500 :=
  have h := add_product_extraction.1 "add product: mouse, price 1500, category electronics"
    { name := "mouse", price := 1500, category := "electronics", in_stock := true }
    (by decide)
  ⟨h.1, h.2.2.1⟩

/-- C10: the Python truthiness check `if name and price` makes a price of
exactly 0 (and an empty name) indistinguishable from an absent one:
extraction fails whenever the extracted price is 0, no creation action
ever carries price 0, and in particular `add product: mouse, price 0`
extracts name `mouse` and price 0 yet returns no match. -/
theorem zero_price_never_created :
    (∀ t : String, add_extract_price t = some 0 → match_add_product t = none)
    ∧ (∀ t : String, add_extract_name t = some "" → match_add_product t = none)
    ∧ (∀ (t : String) (r : AddArgs), match_add_product t = some r → r.price ≠ 0)
    ∧ add_extract_price "add product: mouse, price 0" = some 0
    ∧ add_extract_name "add product: mouse, price 0" = some "mouse"
    ∧ match_add_product "add product: mouse, price 0" = none := by
  refine ⟨?_, ?_, ?_, by decide, by decide, by decide⟩
  · intro t hp
    simp only [match_add_product, hp]
    split
    · cases add_extract_name t with
      | none => rfl
      | some n => simp
    · rfl
  · intro t hn
    simp only [match_add_product, hn]
    split
    · cases add_extract_price t with
      | none => rfl
      | some p => simp
    · rfl
  · intro t r h hr0
    simp only [match_add_product] at h
    split at h
    · cases hn : add_extract_name t with
      | none => rw [hn] at h; simp at h
      | some n =>
        cases hp : add_extract_price t with
        | none => rw [hn, hp] at h; simp at h
        | some p =>
          rw [hn, hp] at h
          by_cases hne : n = ""
          · simp [hne] at h
          · by_cases hpe : p = 0
            · simp [hne, hpe] at h
            · simp only [hne, hpe, if_neg, if_false, reduceIte] at h
              cases h
              exact hpe hr0
    · simp at h

/-- Witness for C10 at the zero-priced creation utterance. -/
theorem zero_price_never_created_witness :
    match_add_product "add product: mouse, price 0" = none :=
  zero_price_never_created.1 "add product: mouse, price 0" (by decide)

/-- C2 counterexample, in two parts. (i) `show all products with 15%
discount on keyboard`: discount-on-named-product extraction succeeds, yet
the classifier (listing rule, which fires earlier) stores no pending
discount. (ii) on the claim's own two-step example the reply renders the
percentage as `15.0%` (the stored value is a Python float), so it does
not contain the claimed substring `15%`, although it does contain `2125`. -/
theorem discount_two_step_counterexample :
    (match_discount_on_product "show all products with 15% discount on keyboard").isSome = true
    ∧ (classify "show all products with 15% discount on keyboard" { }).1 = .list_products
    ∧ (classify "show all products with 15% discount on keyboard" { }).2.discount_calc = none
    ∧ (format_json_output "out"
        (some (.list [.dict [("id", .int 1), ("name", .str "Keyboard"), ("price", .int 2500),
                             ("category", .str "Electronics"), ("in_stock", .bool true)]]))
        (classify "calculate 15% discount on keyboard" { }).2).1
      = .ok "The Keyboard costs $2500. With a 15.0% discount, the price would be $2125.00."
    ∧ containsSub
        "The Keyboard costs $2500. With a 15.0% discount, the price would be $2125.00."
        "15%" = false
    ∧ containsSub
        "The Keyboard costs $2500. With a 15.0% discount, the price would be $2125.00."
        "2125" = true := by
  refine ⟨by decide, by decide, by decide, by decide, by decide, by decide⟩

/-- C2 amended: when discount-on-named-product extraction succeeds and no
earlier cascade rule matches, the classifier stores the extracted
percentage and product name as the pending discount and emits the listing
call; a subsequent formatter call on a list containing an entry whose
name contains the stored name case-insensitively (the scan passing over
any earlier entries, whose string names do not match) renders that first
matching entry as `price * (1 - percent/100)` rounded to two decimals; on
the concrete two-step example the reply contains `15.0%` (not `15%`: the
percentage is stored as a float) and `2125`. -/
theorem discount_two_step_amended
    (content : String) (ctx : Ctx) (d : DiscountInfo)
    (hd : match_discount_on_product (pyToLower content) = some d)
    (h1 : (optIntTruthy (extract_product_id (pyToLower content))
            && retrievalVerbs.any fun w => containsSub (pyToLower content) w) = false)
    (h2 : match_intent (pyToLower content) statsActionKws statsEntityKws = false)
    (h3 : match_intent (pyToLower content) listActionKws listEntityKws = false)
    (h4 : match_add_product (pyToLower content) = none)
    (h5 : match_calculator (pyToLower content) = none) :
    classify content ctx
      = (.list_products,
         { last_query := some (pyToLower content), discount_calc := some d })
    ∧ (∀ (p : ℚ) (pname nm : String) (pr : Int) (pre rest : List PyVal)
          (extra : List (String × PyVal)),
        (∀ item ∈ pre, ∃ s : String, dictGet item "name" = .ok (.str s)
            ∧ containsSub (pyToLower s) (pyToLower pname) = false) →
        containsSub (pyToLower nm) (pyToLower pname) = true →
        handle_discount { discount := p, product_name := pname }
            (pre ++ .dict (("name", .str nm) :: ("price", .int pr) :: extra) :: rest)
          = .ok ("The " ++ nm ++ " costs $" ++ toString pr ++ ". With a " ++ pyFloatRepr p
              ++ "% discount, the price would be $"
              ++ format2f ((pr : ℚ) * (1 - p / 100)) ++ "."))
    ∧ containsSub
        "The Keyboard costs $2500. With a 15.0% discount, the price would be $2125.00."
        "15.0%" = true
    ∧ containsSub
        "The Keyboard costs $2500. With a 15.0% discount, the price would be $2125.00."
        "2125" = true := by
  refine ⟨?_, ?_, by decide, by decide⟩
  · simp [classify, hd, h1, h2, h3, h4, h5]
  · intro p pname nm pr pre rest extra hpre hmatch
    have hfind : ∀ pre : List PyVal,
        (∀ item ∈ pre, ∃ s : String, dictGet item "name" = Except.ok (.str s)
            ∧ containsSub (pyToLower s) (pyToLower pname) = false) →
        findMatching (pyToLower pname)
            (pre ++ .dict (("name", .str nm) :: ("price", .int pr) :: extra) :: rest)
          = .ok (some (.dict (("name", .str nm) :: ("price", .int pr) :: extra))) := by
      intro pre
      induction pre with
      | nil =>
        intro _
        simp [findMatching, ebind, dictGet, pyLowerStr, List.lookup, hmatch]
      | cons item pre ih =>
        intro hpre2
        obtain ⟨s, hs1, hs2⟩ := hpre2 item (by simp)
        have ih2 := ih fun it hit => hpre2 it (by simp [hit])
        simp [findMatching, ebind, hs1, pyLowerStr, hs2, ih2]
    simp [handle_discount, hfind pre hpre, ebind, dictGet, pyAsNum, pyStr, pyRepr,
      List.lookup, qmul_eq, qsub_eq, qdiv_eq]

/-- Witness for C2 at the spec's own utterance, with the catalog row for
the keyboard preceded by a non-matching mouse row that the scan must pass
over. -/
theorem discount_two_step_amended_witness :
    classify "calculate 15% discount on keyboard" { }
      = (.list_products,
         { last_query := some "calculate 15% discount on keyboard",
           discount_calc := some { discount := 15, product_name := "keyboard" } })
    ∧ handle_discount { discount := 15, product_name := "keyboard" }
        [.dict [("name", .str "Mouse"), ("price", .int 50)],
         .dict [("name", .str "Keyboard"), ("price", .int 2500)]]
      = .ok ("The Keyboard costs $2500. With a 15.0% discount, the price would be $"
          ++ format2f ((2500 : ℚ) * (1 - 15 / 100)) ++ ".") := by
  have h := discount_two_step_amended "calculate 15% discount on keyboard" { }
    { discount := 15, product_name := "keyboard" }
    (by decide) (by decide) (by decide) (by decide) (by decide) (by decide)
  refine ⟨h.1, ?_⟩
  refine h.2.1 15 "keyboard" "Keyboard" 2500
    [.dict [("name", .str "Mouse"), ("price", .int 50)]] [] [] ?_ (by decide)
  intro item hit
  simp only [List.mem_singleton] at hit
  subst hit
  exact ⟨"Mouse", rfl, by decide⟩
